import Mathlib

/-!
Verification development for the browser-acquisition fallback logic of
`src/RPA/Browser.py` (class `Browser`).

The Python methods are shallowly embedded as pure Lean functions.  External
collaborators (the operating system, the selenium launcher, the
webdrivermanager driver providers, the filesystem and environment variables)
are modelled as an explicit `Env` record of oracles and as function
parameters, so every definition is executable on concrete inputs.  Side
effects that the claims talk about (launcher invocations, driver-download
invocations, log records) are returned as explicit event lists.
-/

/-- Python exceptions that the embedded code can raise and that are relevant
to the claims.  `keyError` models the `KeyError` raised by `OS_CMDS[...]`
indexing in `detect_chrome_version`. -/
inductive PyErr where
  | keyError
deriving DecidableEq

/-- Log levels used by `logging` calls that the claims mention. -/
inductive LogLevel where
  | debug
  | info
  | warning
  | error
deriving DecidableEq

/-- One log record: level and message. -/
abbrev LogEvent := LogLevel × String

/-- Values passed to `add_experimental_option` on a ChromeOptions object. -/
inductive ExpOptValue where
  | strList (l : List String)
  | prefs (l : List (String × String))
deriving DecidableEq

/-- Model of a selenium options object (`ChromeOptions()` etc.): the ordered
list of `add_argument` calls and of `add_experimental_option` calls. -/
structure BrowserOptions where
  arguments : List String
  experimentalOptions : List (String × ExpOptValue)
deriving DecidableEq

/-- `options.add_argument(a)` -/
def BrowserOptions.addArgument (o : BrowserOptions) (a : String) : BrowserOptions :=
  { o with arguments := o.arguments ++ [a] }

/-- `options.add_experimental_option(n, v)` -/
def BrowserOptions.addExperimentalOption (o : BrowserOptions) (n : String)
    (v : ExpOptValue) : BrowserOptions :=
  { o with experimentalOptions := o.experimentalOptions ++ [(n, v)] }

/-- Model of the `driver_options` dictionary built by `set_driver_options`.
Each field is an optional entry of the dictionary (absent key = `none`). -/
structure DriverOptions where
  chrome_options : Option BrowserOptions
  options : Option BrowserOptions
  service_log_path : Option String
  service_args : Option (List String)
deriving DecidableEq

/-- The empty dictionary `{}`. -/
def DriverOptions.empty : DriverOptions :=
  { chrome_options := none, options := none, service_log_path := none,
    service_args := none }

/-- The `browser_selection` argument of `open_available_browser`: in Python it
is either a string or a list of strings. -/
inductive BrowserSelection where
  | str (s : String)
  | list (l : List String)
deriving DecidableEq

/-- One invocation of the underlying launcher `self.create_webdriver` (the
SeleniumLibrary side).  `executable_path` is `some p` exactly when the Python
call passes `executable_path=p`. -/
structure LaunchCall where
  browser : String
  options : DriverOptions
  executable_path : Option String
deriving DecidableEq

/-- Outcome of one `create_webdriver` call as seen by `create_rpa_webdriver`:
either an index or a raised `WebDriverException`. -/
inductive LaunchOutcome where
  | ok (index : Nat)
  | webDriverExc
deriving DecidableEq

/-- Result of one `create_rpa_webdriver` call: an index (`index is not
False`), the value `False`, or a propagating Python exception. -/
inductive CreateResult where
  | idx (i : Nat)
  | failed
  | exc (e : PyErr)
deriving DecidableEq

/-- One loop attempt recorded by `open_available_browser`: which browser,
which strategy number (1, 2 or 3), which options dictionary was passed, and
the value of the `download` flag. -/
structure Attempt where
  browser : String
  strategy : Nat
  options : DriverOptions
  download : Bool
deriving DecidableEq

/-- Overall outcome of `open_available_browser`: a returned session index with
the `selected_browser` pair, the raised `BrowserNotFoundError`, or a
propagating Python exception. -/
inductive Outcome where
  | opened (index : Nat) (browser : String) (strategy : Nat)
  | notFound
  | exc (e : PyErr)
deriving DecidableEq

/-- One invocation of `download_driver` performed by `webdriver_init`:
the directory downloaded into and the `version` argument (`none` models
passing the falsy value `False`/`None`). -/
structure DownloadCall where
  dir : String
  version : Option String
deriving DecidableEq

/-- The external world as seen by the embedded code: the detected platform,
shell-command outputs, which browser kinds have a driver manager in
`AVAILABLE_DRIVERS`, driver filenames and link paths reported by the manager,
environment variables, the filesystem, and the logger's debug flag. -/
structure Env where
  platform : String
  cmdOutput : String → Option String
  hasDriverManager : String → Bool
  driverFilename : String → String
  linkPath : String → String
  tempdirEnvVar : Option String
  tempfileDefault : String
  fileExists : String → Bool
  debugEnabled : Bool
  userProfileDir : Option String

/-- `Browser.AVAILABLE_OPTIONS`: the option-class table; `"chrome"` is its
only key (the other entries are commented out in the source). -/
def AVAILABLE_OPTIONS : List (String × String) := [("chrome", "ChromeOptions")]

/-- `Browser.CHROMEDRIVER_VERSIONS`: the static major-version table. -/
def CHROMEDRIVER_VERSIONS : List (String × String) :=
  [("81", "81.0.4044.69"), ("80", "80.0.3987.106"), ("79", "79.0.3945.36")]

/-- `Browser.AUTOMATIC_BROWSER_SELECTION`. -/
def AUTOMATIC_BROWSER_SELECTION : String := "AUTO"

/-- Model of Python's `str.lower()` for the ASCII browser names used here
(character-wise lowercasing). -/
def pyLower (s : String) : String := String.mk (s.data.map Char.toLower)

/-- The `OS_CMDS` dictionary of `detect_chrome_version`; `none` for a platform
that is not a key (indexing then raises `KeyError`). -/
def OS_CMDS (os : String) : Option (List String) :=
  if os = "Windows" then some
    ["reg query \"HKEY_CURRENT_USER\\Software\\Google\\Chrome\\BLBeacon\" /v version",
     "reg query \"HKEY_CURRENT_USER\\Software\\Chromium\\BLBeacon\" /v version"]
  else if os = "Linux" then some
    ["chromium --version", "chromium-browser --version", "google-chrome --version"]
  else if os = "Darwin" then some
    ["/Applications/Google\\ Chrome.app/Contents/MacOS/Google\\ Chrome --version",
     "/Applications/Google\\ Chrome.app/Contents/MacOS/Google\\ Chrome --version",
     "/Applications/Chromium.app/Contents/MacOS/Chromium --version"]
  else none

/-!
Model of `re.search(r"(\d+)(\.\d+\.\d+.\d+)", s)` (`CHROME_VERSION_PATTERN`).
Note the unescaped `.` before the final `\d+`: it matches any character.
The pattern is rigid enough that backtracking only matters for the third
digit run (a `\d+` directly followed by a literal `\.` is forced maximal,
because shortening it puts a digit where the `\.` must match).
-/

/-- Split a character list into its maximal leading digit run and the rest. -/
def splitDigits : List Char → List Char × List Char
  | [] => ([], [])
  | c :: cs =>
    if c.isDigit then
      let p := splitDigits cs
      (c :: p.1, p.2)
    else ([], c :: cs)

/-- Backtracking for the suffix `\d+.\d+` of the pattern: `c` is the maximal
digit run, `rest` the characters after it; `n` is the number of digits the
greedy third `\d+` currently keeps.  Returns the characters matched by
`\d+.\d+` (third run, the any-character, and the final digit run). -/
def thirdComponent (c rest : List Char) : Nat → Option (List Char)
  | 0 => none
  | n + 1 =>
    match c.drop (n + 1) ++ rest with
    | [] => thirdComponent c rest n
    | anyc :: after =>
      if (splitDigits after).1.isEmpty then thirdComponent c rest n
      else some (c.take (n + 1) ++ anyc :: (splitDigits after).1)

/-- Try to match `(\d+)(\.\d+\.\d+.\d+)` at the start of `s`; on success
returns `(group(1), group(0))`, i.e. the major version and the full match. -/
def matchAt (s : List Char) : Option (String × String) :=
  let p1 := splitDigits s
  if p1.1.isEmpty then none else
  match p1.2 with
  | '.' :: r2 =>
    let p2 := splitDigits r2
    if p2.1.isEmpty then none else
    match p2.2 with
    | '.' :: r4 =>
      let p3 := splitDigits r4
      if p3.1.isEmpty then none else
      match thirdComponent p3.1 p3.2 p3.1.length with
      | none => none
      | some third =>
        some (String.mk p1.1, String.mk (p1.1 ++ '.' :: p2.1 ++ '.' :: third))
    | _ => none
  | _ => none

/-- `re.search`: try the pattern at every position, leftmost match wins. -/
def searchPattern : List Char → Option (String × String)
  | [] => none
  | c :: cs =>
    match matchAt (c :: cs) with
    | some r => some r
    | none => searchPattern cs

/-- `get_preferable_browser_order` as a function of `platform.system()`. -/
def get_preferable_browser_order (plat : String) : List String :=
  if plat = "Windows" then ["Chrome"] ++ ["Firefox", "Edge", "IE", "Opera"]
  else if plat = "Linux" then ["Chrome"] ++ ["Firefox", "Opera"]
  else if plat = "Darwin" then ["Chrome"] ++ ["Safari", "Firefox", "Opera"]
  else ["Chrome"] ++ ["Firefox"]

/-- `get_browser_order`: the `"AUTO"` sentinel selects the platform order; a
list is passed through; a single name is promoted to a one-element list. -/
def get_browser_order (plat : String) (browser_selection : BrowserSelection) :
    List String :=
  if browser_selection = BrowserSelection.str AUTOMATIC_BROWSER_SELECTION then
    get_preferable_browser_order plat
  else
    match browser_selection with
    | BrowserSelection.list l => l
    | BrowserSelection.str s => [s]

/-- `set_default_options`. -/
def set_default_options (options : BrowserOptions) : BrowserOptions :=
  (((options.addArgument "--disable-web-security").addArgument
      "--allow-running-insecure-content").addArgument
      "--remote-debugging-port=12922").addArgument "--no-sandbox"

/-- `set_headless_options`: Safari is skipped; otherwise (the options object
is always truthy where this is reached) three arguments are added. -/
def set_headless_options (browser : String) (options : BrowserOptions) :
    BrowserOptions :=
  if pyLower browser = "safari" then options
  else
    ((options.addArgument "--headless").addArgument
        "--disable-gpu").addArgument "--disable-dev-shm-usage"

/-- `set_user_profile`: without the `RPA_CHROME_USER_PROFILE_DIR` environment
variable only a warning is logged; otherwise three arguments are added. -/
def set_user_profile (env : Env) (options : BrowserOptions) : BrowserOptions :=
  match env.userProfileDir with
  | none => options
  | some d =>
    ((options.addArgument
        ("--user-data-dir=\x27" ++ d ++ "\x27")).addArgument
        "--enable-local-sync-backend").addArgument
        ("--local-sync-backend-dir=\x27" ++ d ++ "\x27")

/-- `set_driver_options`: returns the empty dictionary when the browser has no
entry in `AVAILABLE_OPTIONS`; for Chrome builds the ChromeOptions object with
default options, experimental options, optional debug logging entries, and
the headless / maximized / profile flags, in source order. -/
def set_driver_options (env : Env) (browser : String)
    (use_profile headless maximized : Bool) : DriverOptions :=
  match AVAILABLE_OPTIONS.lookup (pyLower browser) with
  | none => DriverOptions.empty
  | some _cls =>
    let bo : BrowserOptions := { arguments := [], experimentalOptions := [] }
    let chromeBranch := pyLower browser = "chrome"
    let bo :=
      if chromeBranch then
        ((set_default_options bo).addExperimentalOption "excludeSwitches"
            (ExpOptValue.strList ["enable-logging"])).addExperimentalOption
            "prefs" (ExpOptValue.prefs [("safebrowsing.enabled", "true")])
      else bo
    let service_log_path :=
      if chromeBranch ∧ env.debugEnabled then some "chromedriver.log" else none
    let service_args :=
      if chromeBranch ∧ env.debugEnabled then some ["--verbose"] else none
    let bo := if headless then set_headless_options browser bo else bo
    let bo := if maximized then bo.addArgument "--start-maximized" else bo
    let bo := if use_profile then set_user_profile env bo else bo
    if pyLower browser ≠ "chrome" then
      { chrome_options := none, options := some bo,
        service_log_path := service_log_path, service_args := service_args }
    else
      { chrome_options := some bo, options := none,
        service_log_path := service_log_path, service_args := service_args }

/-- The command loop inside `detect_chrome_version`: run each command; if its
output is truthy and the pattern finds a match, return immediately (the table
lookup, which yields `none` = `False` for an unmapped major version);
otherwise continue with the next command; after the loop return `False`. -/
def detectLoop (env : Env) : List String → Option String
  | [] => none
  | cmd :: rest =>
    match env.cmdOutput cmd with
    | none => detectLoop env rest
    | some output =>
      match searchPattern output.data with
      | none => detectLoop env rest
      | some (major, _detailed) => CHROMEDRIVER_VERSIONS.lookup major

/-- `detect_chrome_version`: `OS_CMDS[platform.system()]` raises `KeyError`
for a platform that is not a key; otherwise the command loop runs.  The
result `none` models the Python return value `False`. -/
def detect_chrome_version (env : Env) : Except PyErr (Option String) :=
  match OS_CMDS env.platform with
  | none => Except.error PyErr.keyError
  | some cmds => Except.ok (detectLoop env cmds)

/-- `get_installed_chromedriver_version`: run the given command; on truthy
output search the pattern and map the major version through the table;
`none` models every `False` return. -/
def get_installed_chromedriver_version (env : Env)
    (driver_executable_path : String) : Option String :=
  match env.cmdOutput driver_executable_path with
  | none => none
  | some output =>
    match searchPattern output.data with
    | none => none
    | some (major, _detailed) => CHROMEDRIVER_VERSIONS.lookup major

/-- The `try` body of `download_driver`: call `download_and_install` (with the
version when it is truthy, else without), then log the success at debug
level.  `dl` is the external `DriverProvider`; `Except.error ()` models a
raised `RuntimeError`. -/
def download_and_install_try (dl : Option String → Except Unit Unit)
    (driver_filename download_dir : String) (version : Option String) :
    Except Unit (List LogEvent) :=
  match (match version with
         | some v => if v = "" then dl none else dl (some v)
         | none => dl none) with
  | Except.error e => Except.error e
  | Except.ok _ =>
    Except.ok [(LogLevel.debug,
      driver_filename ++ " downloaded into " ++ download_dir)]

/-- `download_driver`: logs the entry message at info level, then runs the
`try` body; `except RuntimeError: pass` is the error branch, which adds no
log record and swallows the exception (the function is total). -/
def download_driver (dl : Option String → Except Unit Unit)
    (driver_filename download_dir : String) (version : Option String) :
    List LogEvent :=
  (LogLevel.info, "Downloading driver into: " ++ download_dir) ::
  (match download_and_install_try dl driver_filename download_dir version with
   | Except.ok logs => logs
   | Except.error _ => [])

/-- `_set_driver_paths`: returns `(driver_executable_path, driver_tempdir)`;
the temp copy is preferred when it exists or a download was requested. -/
def set_driver_paths (env : Env) (browser : String) (download : Bool) :
    String × String :=
  let driver_executable := env.driverFilename (pyLower browser)
  let default_executable_path :=
    env.linkPath (pyLower browser) ++ "/" ++ driver_executable
  let tempdir :=
    match env.tempdirEnvVar with
    | some t => if t = "" then env.tempfileDefault else t
    | none => env.tempfileDefault
  let driver_tempdir := tempdir ++ "/drivers"
  let temp_executable_path := driver_tempdir ++ "/" ++ driver_executable
  if env.fileExists temp_executable_path || download then
    (temp_executable_path, driver_tempdir)
  else (default_executable_path, driver_tempdir)

/-- `_check_chrome_and_driver_versions`: force a download when the installed
chromedriver version cannot be determined (`False`) or differs from the
detected browser version.  The probed command is `str(driver_ex_path /
" --version")`, i.e. the path joined with the component `" --version"`. -/
def check_chrome_and_driver_versions (env : Env) (driver_ex_path : String)
    (browser_version : Option String) : Bool :=
  match get_installed_chromedriver_version env
      (driver_ex_path ++ "/" ++ " --version") with
  | none => true
  | some v => decide (some v ≠ browser_version)

/-- `webdriver_init`: detect the Chrome version (this can raise `KeyError`),
look up the driver manager, resolve paths, and when `download` is set decide
whether `download_driver` is invoked; returns the driver path (always a
truthy string when a manager exists, `None` otherwise) together with the
list of `download_driver` invocations performed. -/
def webdriver_init (env : Env) (browser : String) (download : Bool) :
    Except PyErr (Option String × List DownloadCall) :=
  match detect_chrome_version env with
  | Except.error e => Except.error e
  | Except.ok browser_version =>
    if env.hasDriverManager (pyLower browser) then
      let paths := set_driver_paths env browser download
      let events : List DownloadCall :=
        if download then
          if ¬ env.fileExists paths.1 then
            [{ dir := paths.2, version := browser_version }]
          else if pyLower browser = "chrome" then
            if check_chrome_and_driver_versions env paths.1 browser_version then
              [{ dir := paths.2, version := browser_version }]
            else []
          else []
        else []
      Except.ok (some paths.1, events)
    else Except.ok (none, [])

/-- The `download_driver` invocations performed by a `webdriver_init` call
(empty when the call raised). -/
def webdriverInitEvents (env : Env) (browser : String) (download : Bool) :
    List DownloadCall :=
  match webdriver_init env browser download with
  | Except.ok (_, events) => events
  | Except.error _ => []

/-- Python truthiness of an optional string: `None` and the empty string are
falsy (`if executable:` passes `executable_path` only then). -/
def pyTruthyStr (s : Option String) : Option String :=
  match s with
  | some s => if s = "" then none else some s
  | none => none

/-- `create_rpa_webdriver`: resolve the driver path via `webdriver_init`
(outside the `try`, so its exceptions propagate), then call the launcher
once, with `executable_path` exactly when the resolved path is truthy; a
`WebDriverException` is caught and turned into the return value `False`. -/
def create_rpa_webdriver (env : Env) (cw : LaunchCall → LaunchOutcome)
    (browser : String) (options : DriverOptions) (download : Bool) :
    CreateResult × List LaunchCall :=
  match webdriver_init env browser download with
  | Except.error e => (CreateResult.exc e, [])
  | Except.ok (executable, _events) =>
    let call : LaunchCall :=
      { browser := browser, options := options,
        executable_path := pyTruthyStr executable }
    match cw call with
    | LaunchOutcome.ok i => (CreateResult.idx i, [call])
    | LaunchOutcome.webDriverExc => (CreateResult.failed, [call])

/-- The candidate loop of `open_available_browser` (lines 117-152): per
candidate, strategy 1 (caller options, `download=False`), strategy 2 (same
options, `download=True`), and, only when the caller did not request
headless, strategy 3 (options rebuilt with `headless=True`,
`download=True`).  The first non-`False` index stops everything.  Returns
the recorded attempts, the launcher invocations, and the outcome. -/
def browserLoop (env : Env)
    (create : String → DriverOptions → Bool → CreateResult × List LaunchCall)
    (use_profile headless maximized : Bool) :
    List String → List Attempt × List LaunchCall × Outcome
  | [] => ([], [], Outcome.notFound)
  | browser :: rest =>
    let options := set_driver_options env browser use_profile headless maximized
    let a1 : Attempt :=
      { browser := browser, strategy := 1, options := options, download := false }
    let r1 := create browser options false
    match r1.1 with
    | CreateResult.exc e => ([a1], r1.2, Outcome.exc e)
    | CreateResult.idx i => ([a1], r1.2, Outcome.opened i browser 1)
    | CreateResult.failed =>
      let a2 : Attempt :=
        { browser := browser, strategy := 2, options := options, download := true }
      let r2 := create browser options true
      match r2.1 with
      | CreateResult.exc e => ([a1, a2], r1.2 ++ r2.2, Outcome.exc e)
      | CreateResult.idx i => ([a1, a2], r1.2 ++ r2.2, Outcome.opened i browser 2)
      | CreateResult.failed =>
        if headless then
          let r := browserLoop env create use_profile headless maximized rest
          (a1 :: a2 :: r.1, r1.2 ++ r2.2 ++ r.2.1, r.2.2)
        else
          let options2 := set_driver_options env browser use_profile true maximized
          let a3 : Attempt :=
            { browser := browser, strategy := 3, options := options2,
              download := true }
          let r3 := create browser options2 true
          match r3.1 with
          | CreateResult.exc e =>
            ([a1, a2, a3], r1.2 ++ r2.2 ++ r3.2, Outcome.exc e)
          | CreateResult.idx i =>
            ([a1, a2, a3], r1.2 ++ r2.2 ++ r3.2, Outcome.opened i browser 3)
          | CreateResult.failed =>
            let r := browserLoop env create use_profile headless maximized rest
            (a1 :: a2 :: a3 :: r.1, r1.2 ++ r2.2 ++ r3.2 ++ r.2.1, r.2.2)

/-- `open_available_browser`: compute the candidate order, then run the
fallback loop.  The `url` is only used by the external `go_to` call after a
successful launch and does not influence the recorded behaviour. -/
def open_available_browser (env : Env)
    (create : String → DriverOptions → Bool → CreateResult × List LaunchCall)
    (_url : String) (use_profile headless maximized : Bool)
    (browser_selection : BrowserSelection) :
    List Attempt × List LaunchCall × Outcome :=
  browserLoop env create use_profile headless maximized
    (get_browser_order env.platform browser_selection)

/-!  Concrete environments and stub collaborators used by the closed
theorems below. -/

/-- A Linux environment with no Chrome installation detected, the usual
driver managers, no pre-existing files, and default temp directory. -/
def baseEnv : Env :=
  { platform := "Linux", cmdOutput := fun _ => none,
    hasDriverManager := fun b =>
      b == "chrome" || b == "firefox" || b == "opera" || b == "edge",
    driverFilename := fun b => if b == "chrome" then "chromedriver" else "geckodriver",
    linkPath := fun _ => "/usr/local/bin", tempdirEnvVar := none,
    tempfileDefault := "/tmp", fileExists := fun _ => false,
    debugEnabled := false, userProfileDir := none }

/-- `baseEnv` on a platform that is no key of `OS_CMDS`. -/
def keyErrEnv : Env := { baseEnv with platform := "FreeBSD" }

/-- Environment where Chrome 80 is installed, a chromedriver for Chrome 79
already exists in the drivers temp directory, and its `--version` probe
reports that version. -/
def env6 : Env := { baseEnv with
  cmdOutput := fun c =>
    if c == "chromium --version" then some "Chromium 80.0.3987.106"
    else if c == "/tmp/drivers/chromedriver/ --version" then
      some "ChromeDriver 79.0.3945.36 stable"
    else none,
  fileExists := fun p =>
    p == "/tmp/drivers/chromedriver" || p == "/tmp/drivers/geckodriver" }

/-- Environment whose first version probe produces output with no
version-like substring while the second probe reports Chrome 80. -/
def envC7 : Env := { baseEnv with
  cmdOutput := fun c =>
    if c == "chromium --version" then some "Chromium snapshot build"
    else if c == "chromium-browser --version" then
      some "Chromium 80.0.3987.106 Built on Ubuntu"
    else none }

/-- A launcher on which every `create_webdriver` call raises
`WebDriverException`. -/
def cwFail : LaunchCall → LaunchOutcome := fun _ => LaunchOutcome.webDriverExc

/-- A `create_rpa_webdriver` stub that fails every Chrome attempt, fails
Firefox with `download=False` (strategy 1) and succeeds on Firefox with
`download=True` (strategy 2), returning index 7. -/
def stubCreateC1 : String → DriverOptions → Bool → CreateResult × List LaunchCall :=
  fun b _o d =>
    if b = "Firefox" then
      (if d then (CreateResult.idx 7, []) else (CreateResult.failed, []))
    else (CreateResult.failed, [])

/-- A `create_rpa_webdriver` stub that always returns `False`. -/
def stubFail : String → DriverOptions → Bool → CreateResult × List LaunchCall :=
  fun _ _ _ => (CreateResult.failed, [])

/-- A `DriverProvider.download_and_install` stub that always raises
`RuntimeError`. -/
def failDl : Option String → Except Unit Unit := fun _ => Except.error ()

/-!  Helper lemmas shared by the claim theorems. -/

/-- A list selection is never equal to the `"AUTO"` string, so it is passed
through unchanged. -/
theorem get_browser_order_list (plat : String) (l : List String) :
    get_browser_order plat (BrowserSelection.list l) = l := by
  simp [get_browser_order]

/-- A non-`"AUTO"` single name is promoted to a one-element list. -/
theorem get_browser_order_str (plat : String) (s : String) (h : s ≠ "AUTO") :
    get_browser_order plat (BrowserSelection.str s) = [s] := by
  simp [get_browser_order, AUTOMATIC_BROWSER_SELECTION, h]

/-- C1: with a launcher that fails all three Chrome strategies, fails Firefox
strategy 1 (`download=False`) and succeeds on Firefox strategy 2
(`download=True`), `open_available_browser` stops at the first successful
(candidate, strategy) attempt: it records exactly the attempts Chrome 1-3
and Firefox 1-2, returns the index with selected browser `(Firefox, 2)`,
and never attempts Firefox strategy 3 or any later candidate. -/
theorem open_available_browser_first_success_stops
    (env : Env)
    (create : String → DriverOptions → Bool → CreateResult × List LaunchCall)
    (u m : Bool) (rest : List String) (i : Nat) (url : String)
    (h1 : ∀ o d, (create "Chrome" o d).1 = CreateResult.failed)
    (h2 : ∀ o, (create "Firefox" o false).1 = CreateResult.failed)
    (h3 : ∀ o, (create "Firefox" o true).1 = CreateResult.idx i) :
    ((open_available_browser env create url u false m
        (BrowserSelection.list ("Chrome" :: "Firefox" :: rest))).1.map
        (fun a => (a.browser, a.strategy)) =
      [("Chrome", 1), ("Chrome", 2), ("Chrome", 3), ("Firefox", 1), ("Firefox", 2)]) ∧
    (open_available_browser env create url u false m
        (BrowserSelection.list ("Chrome" :: "Firefox" :: rest))).2.2 =
      Outcome.opened i "Firefox" 2 := by
  simp [open_available_browser, get_browser_order_list, browserLoop, h1, h2, h3]

/-- C1 witness: the scenario instantiated with the concrete stub launcher and
candidate list `["Chrome", "Firefox", "Opera"]`. -/
theorem open_available_browser_first_success_stops_witness :
    ((open_available_browser baseEnv stubCreateC1 "https://www.example.com"
        false false false
        (BrowserSelection.list ["Chrome", "Firefox", "Opera"])).1.map
        (fun a => (a.browser, a.strategy)) =
      [("Chrome", 1), ("Chrome", 2), ("Chrome", 3), ("Firefox", 1), ("Firefox", 2)]) ∧
    (open_available_browser baseEnv stubCreateC1 "https://www.example.com"
        false false false
        (BrowserSelection.list ["Chrome", "Firefox", "Opera"])).2.2 =
      Outcome.opened 7 "Firefox" 2 :=
  open_available_browser_first_success_stops baseEnv stubCreateC1 false false
    ["Opera"] 7 "https://www.example.com"
    (fun _ _ => rfl) (fun _ => rfl) (fun _ => rfl)

/-- C2: with a launcher that always fails, `open_available_browser` raises
`BrowserNotFoundError`, after attempting, per candidate in order, exactly
strategies 1, 2, 3 when the caller did not request headless and exactly
strategies 1, 2 when the caller requested `headless=True`. -/
theorem open_available_browser_exhaustion_raises
    (env : Env)
    (create : String → DriverOptions → Bool → CreateResult × List LaunchCall)
    (u h m : Bool) (url : String) (candidates : List String)
    (hf : ∀ b o d, (create b o d).1 = CreateResult.failed) :
    (open_available_browser env create url u h m
        (BrowserSelection.list candidates)).2.2 = Outcome.notFound ∧
    (open_available_browser env create url u h m
        (BrowserSelection.list candidates)).1.map
        (fun a => (a.browser, a.strategy)) =
      candidates.flatMap
        (fun b => if h then [(b, 1), (b, 2)] else [(b, 1), (b, 2), (b, 3)]) := by
  simp only [open_available_browser, get_browser_order_list]
  induction candidates with
  | nil => simp [browserLoop]
  | cons b bs ih =>
    cases h with
    | false => simp [browserLoop, hf, ih.1, ih.2]
    | true => simp [browserLoop, hf, ih.1, ih.2]

/-- C2 witness: the all-failing stub on two candidates without headless:
three attempts per candidate, then `BrowserNotFoundError`. -/
theorem open_available_browser_exhaustion_raises_witness :
    (open_available_browser baseEnv stubFail "https://www.example.com"
        false false false (BrowserSelection.list ["Chrome", "Firefox"])).2.2 =
      Outcome.notFound ∧
    (open_available_browser baseEnv stubFail "https://www.example.com"
        false false false (BrowserSelection.list ["Chrome", "Firefox"])).1.map
        (fun a => (a.browser, a.strategy)) =
      ["Chrome", "Firefox"].flatMap
        (fun b => if false then [(b, 1), (b, 2)] else [(b, 1), (b, 2), (b, 3)]) :=
  open_available_browser_exhaustion_raises baseEnv stubFail false false false
    "https://www.example.com" ["Chrome", "Firefox"] (fun _ _ _ => rfl)

/-- C3: with the automatic selector, the candidate list always begins with
Chrome and is followed by the static per-OS tail: Windows gets Firefox,
Edge, IE, Opera; Linux gets Firefox, Opera; Darwin gets Safari, Firefox,
Opera; every other platform gets Firefox. -/
theorem preferable_browser_order_table :
    get_preferable_browser_order "Windows" =
      ["Chrome", "Firefox", "Edge", "IE", "Opera"] ∧
    get_preferable_browser_order "Linux" = ["Chrome", "Firefox", "Opera"] ∧
    get_preferable_browser_order "Darwin" =
      ["Chrome", "Safari", "Firefox", "Opera"] ∧
    (∀ p, p ≠ "Windows" → p ≠ "Linux" → p ≠ "Darwin" →
      get_preferable_browser_order p = ["Chrome", "Firefox"]) ∧
    (∀ p, (get_preferable_browser_order p).head? = some "Chrome") := by
  refine ⟨rfl, rfl, rfl, ?_, ?_⟩
  · intro p h1 h2 h3
    simp [get_preferable_browser_order, h1, h2, h3]
  · intro p
    unfold get_preferable_browser_order
    split_ifs <;> rfl

/-- C3 witness: the fallback row of the table, instantiated at a platform
that is none of the three keys. -/
theorem preferable_browser_order_table_witness :
    get_preferable_browser_order "FreeBSD" = ["Chrome", "Firefox"] ∧
    (get_preferable_browser_order "FreeBSD").head? = some "Chrome" :=
  ⟨preferable_browser_order_table.2.2.2.1 "FreeBSD" (by decide) (by decide)
      (by decide),
   preferable_browser_order_table.2.2.2.2 "FreeBSD"⟩

/-- C4: every explicit (non-`"AUTO"`) selection is returned exactly: a list
unchanged with order preserved, a single browser name promoted to the
one-element list containing it. -/
theorem browser_order_explicit_identity :
    (∀ s, s ≠ "AUTO" →
      ∀ p, get_browser_order p (BrowserSelection.str s) = [s]) ∧
    (∀ l p, get_browser_order p (BrowserSelection.list l) = l) :=
  ⟨fun s hs p => get_browser_order_str p s hs,
   fun l p => get_browser_order_list p l⟩

/-- C4 witness: a single name and a two-element list pass through. -/
theorem browser_order_explicit_identity_witness :
    get_browser_order "Linux" (BrowserSelection.str "Chrome") = ["Chrome"] ∧
    get_browser_order "Windows" (BrowserSelection.list ["Edge", "IE"]) =
      ["Edge", "IE"] :=
  ⟨browser_order_explicit_identity.1 "Chrome" (by decide) "Linux",
   browser_order_explicit_identity.2 ["Edge", "IE"] "Windows"⟩

/-- C10: for every browser kind whose lower-cased name is not `"chrome"` (the
only key of `AVAILABLE_OPTIONS`), `set_driver_options` returns the empty
dictionary regardless of the `use_profile`, `headless` and `maximized`
arguments. -/
theorem non_chrome_options_empty (env : Env) (browser : String)
    (h : pyLower browser ≠ "chrome") (use_profile headless maximized : Bool) :
    set_driver_options env browser use_profile headless maximized =
      DriverOptions.empty := by
  unfold set_driver_options
  have hl : AVAILABLE_OPTIONS.lookup (pyLower browser) = none := by
    simp [AVAILABLE_OPTIONS, List.lookup, beq_eq_false_iff_ne.mpr h]
  rw [hl]

/-- C10 witness: Firefox with all flags set still gets the empty
dictionary. -/
theorem non_chrome_options_empty_witness :
    set_driver_options baseEnv "Firefox" true true true = DriverOptions.empty :=
  non_chrome_options_empty baseEnv "Firefox" (by decide) true true true

/-- C9: on a platform that is not a key of `OS_CMDS`,
`detect_chrome_version` raises `KeyError`; since `webdriver_init` calls it
unconditionally for every browser kind, `open_available_browser` propagates
that `KeyError` (no handler catches it) with an empty list of launcher
invocations, i.e. it crashes before any launch attempt is made. -/
theorem missing_platform_keyerror_crash
    (env : Env) (cw : LaunchCall → LaunchOutcome) (u h m : Bool) (url : String)
    (sel : BrowserSelection) (b : String) (rest : List String)
    (hp : OS_CMDS env.platform = none)
    (hsel : get_browser_order env.platform sel = b :: rest) :
    detect_chrome_version env = Except.error PyErr.keyError ∧
    open_available_browser env (create_rpa_webdriver env cw) url u h m sel =
      ([{ browser := b, strategy := 1,
          options := set_driver_options env b u h m, download := false }],
       [], Outcome.exc PyErr.keyError) := by
  have hd : detect_chrome_version env = Except.error PyErr.keyError := by
    unfold detect_chrome_version
    rw [hp]
  refine ⟨hd, ?_⟩
  unfold open_available_browser
  rw [hsel]
  simp [browserLoop, create_rpa_webdriver, webdriver_init, hd]

/-- C9 witness: on `"FreeBSD"` with an explicit Chrome selection the whole
acquisition crashes with `KeyError` and zero launcher invocations. -/
theorem missing_platform_keyerror_crash_witness :
    detect_chrome_version keyErrEnv = Except.error PyErr.keyError ∧
    open_available_browser keyErrEnv (create_rpa_webdriver keyErrEnv cwFail)
        "https://www.example.com" false false false
        (BrowserSelection.str "Chrome") =
      ([{ browser := "Chrome", strategy := 1,
          options := set_driver_options keyErrEnv "Chrome" false false false,
          download := false }],
       [], Outcome.exc PyErr.keyError) :=
  missing_platform_keyerror_crash keyErrEnv cwFail false false false
    "https://www.example.com" (BrowserSelection.str "Chrome") "Chrome" [] rfl
    (get_browser_order_str _ _ (by decide))

/-- C5 counterexample: concretely on Linux with the chrome driver manager
available, the strategy-1 attempt (first attempt, `download=False`, caller
flags only) already passes the resolved default driver location as
`executable_path` to the launcher, contradicting the claim that no explicit
driver path override is passed in strategy 1. -/
theorem strategy_one_passes_driver_path_cex :
    ((open_available_browser baseEnv (create_rpa_webdriver baseEnv cwFail)
        "https://www.example.com" false false false
        (BrowserSelection.str "Chrome")).1.head?).map
        (fun a => (a.browser, a.strategy, a.download)) =
      some ("Chrome", 1, false) ∧
    ((open_available_browser baseEnv (create_rpa_webdriver baseEnv cwFail)
        "https://www.example.com" false false false
        (BrowserSelection.str "Chrome")).2.1.head?).map
        (fun c => c.executable_path) =
      some (some "/usr/local/bin/chromedriver") := by
  constructor <;> rfl

/-- The launcher-call trace of one `create_rpa_webdriver` call that did not
raise: exactly one call, carrying the truthy-filtered resolved path. -/
theorem create_rpa_webdriver_calls (env : Env) (cw : LaunchCall → LaunchOutcome)
    (browser : String) (options : DriverOptions) (download : Bool)
    (exe : Option String) (evs : List DownloadCall)
    (hw : webdriver_init env browser download = Except.ok (exe, evs)) :
    (create_rpa_webdriver env cw browser options download).2 =
      [{ browser := browser, options := options,
         executable_path := pyTruthyStr exe }] := by
  unfold create_rpa_webdriver
  rw [hw]
  rcases hcw : cw ⟨browser, options, pyTruthyStr exe⟩ with i | _ <;> simp [hcw]

/-- Whatever the launcher does, the first recorded attempt for the first
candidate is strategy 1 with the caller-flag options and `download=False`. -/
theorem browserLoop_head (env : Env)
    (create : String → DriverOptions → Bool → CreateResult × List LaunchCall)
    (u h m : Bool) (b : String) (rest : List String) :
    (browserLoop env create u h m (b :: rest)).1.head? =
      some { browser := b, strategy := 1,
             options := set_driver_options env b u h m, download := false } := by
  simp only [browserLoop]
  repeat' split
  all_goals rfl

/-- C5 amended: strategy 1 builds its options from the caller's flags only
(headless is not forced) and does not force a driver download
(`download=False`); however, the launcher is invoked with `executable_path`
set to whatever path `webdriver_init` resolves (the existing driver
location), whenever that resolved value is truthy — only a browser kind
without a driver manager is launched without a driver path. -/
theorem strategy_one_options_and_path
    (env : Env) (cw : LaunchCall → LaunchOutcome) (b : String)
    (rest : List String) (u h m : Bool) (url : String)
    (exe : Option String) (evs : List DownloadCall)
    (hw : webdriver_init env b false = Except.ok (exe, evs)) :
    (create_rpa_webdriver env cw b (set_driver_options env b u h m) false).2 =
      [{ browser := b, options := set_driver_options env b u h m,
         executable_path := pyTruthyStr exe }] ∧
    (open_available_browser env (create_rpa_webdriver env cw) url u h m
        (BrowserSelection.list (b :: rest))).1.head? =
      some { browser := b, strategy := 1,
             options := set_driver_options env b u h m, download := false } := by
  refine ⟨create_rpa_webdriver_calls env cw b _ false exe evs hw, ?_⟩
  unfold open_available_browser
  rw [get_browser_order_list]
  exact browserLoop_head env _ u h m b rest

/-- C5 witness for the amended statement: the concrete Linux environment
resolves `/usr/local/bin/chromedriver` and strategy 1 both records the
caller-flag attempt and passes that path. -/
theorem strategy_one_options_and_path_witness :
    (create_rpa_webdriver baseEnv cwFail "Chrome"
        (set_driver_options baseEnv "Chrome" false false false) false).2 =
      [{ browser := "Chrome",
         options := set_driver_options baseEnv "Chrome" false false false,
         executable_path := some "/usr/local/bin/chromedriver" }] ∧
    (open_available_browser baseEnv (create_rpa_webdriver baseEnv cwFail)
        "https://www.example.com" false false false
        (BrowserSelection.list ["Chrome"])).1.head? =
      some { browser := "Chrome", strategy := 1,
             options := set_driver_options baseEnv "Chrome" false false false,
             download := false } := by
  have h := strategy_one_options_and_path baseEnv cwFail "Chrome" [] false false
    false "https://www.example.com" (some "/usr/local/bin/chromedriver") [] rfl
  simpa using h

/-- `_check_chrome_and_driver_versions` forces a download exactly when the
installed chromedriver version cannot be determined or differs from the
detected browser version. -/
theorem check_versions_iff (env : Env) (p : String) (bv : Option String) :
    check_chrome_and_driver_versions env p bv = true ↔
      (get_installed_chromedriver_version env (p ++ "/" ++ " --version") = none ∨
       get_installed_chromedriver_version env (p ++ "/" ++ " --version") ≠ bv) := by
  unfold check_chrome_and_driver_versions
  cases hg : get_installed_chromedriver_version env (p ++ "/" ++ " --version") <;>
    simp [hg]

/-- C6: when a download is requested and a driver already exists at the
resolved path, a Chrome driver is freshly downloaded if and only if the
installed chromedriver's version cannot be determined or differs from the
driver version derived from the detected Chrome version, and a driver of
any non-Chrome kind is never re-downloaded. -/
theorem chrome_driver_redownload_iff (env : Env) (b : String) (bv : Option String)
    (hd : detect_chrome_version env = Except.ok bv)
    (hm : env.hasDriverManager (pyLower b) = true)
    (he : env.fileExists (set_driver_paths env b true).1 = true) :
    (pyLower b = "chrome" →
      (webdriverInitEvents env b true ≠ [] ↔
        (get_installed_chromedriver_version env
            ((set_driver_paths env b true).1 ++ "/" ++ " --version") = none ∨
         get_installed_chromedriver_version env
            ((set_driver_paths env b true).1 ++ "/" ++ " --version") ≠ bv))) ∧
    (pyLower b ≠ "chrome" → webdriverInitEvents env b true = []) := by
  have hev : webdriverInitEvents env b true =
      (if pyLower b = "chrome" then
        (if check_chrome_and_driver_versions env (set_driver_paths env b true).1 bv
         then [{ dir := (set_driver_paths env b true).2, version := bv }]
         else [])
       else []) := by
    unfold webdriverInitEvents webdriver_init
    rw [hd, hm]
    simp [he]
  constructor
  · intro hb
    rw [hev, if_pos hb, ← check_versions_iff env (set_driver_paths env b true).1 bv]
    cases hch : check_chrome_and_driver_versions env (set_driver_paths env b true).1 bv <;>
      simp
  · intro hb
    rw [hev, if_neg hb]

/-- C6 witness: Chrome 80 detected, a chromedriver reporting version 79
already in the drivers temp directory: the versions differ, so a fresh
download is triggered. -/
theorem chrome_driver_redownload_iff_witness :
    get_installed_chromedriver_version env6
        ((set_driver_paths env6 "Chrome" true).1 ++ "/" ++ " --version") =
      some "79.0.3945.36" ∧
    webdriverInitEvents env6 "Chrome" true ≠ [] := by
  refine ⟨rfl, ?_⟩
  exact ((chrome_driver_redownload_iff env6 "Chrome" (some "80.0.3987.106")
      rfl rfl rfl).1 rfl).mpr (Or.inr (by decide))

/-- The command loop of `detect_chrome_version` returns the table lookup of
the major version extracted from the first command output in which the
pattern finds a match, and `False` when no output matches. -/
theorem detectLoop_findSome (env : Env) (cmds : List String) :
    detectLoop env cmds =
      (match cmds.findSome?
          (fun c => (env.cmdOutput c).bind (fun o => searchPattern o.data)) with
       | none => none
       | some (major, _) => CHROMEDRIVER_VERSIONS.lookup major) := by
  induction cmds with
  | nil => rfl
  | cons c cs ih =>
    cases ho : env.cmdOutput c with
    | none => simp [detectLoop, List.findSome?, ho, ih]
    | some o =>
      cases hs : searchPattern o.data with
      | none => simp [detectLoop, List.findSome?, ho, hs, ih]
      | some r =>
        obtain ⟨maj, det⟩ := r
        simp [detectLoop, List.findSome?, ho, hs]

/-- C7 counterexample: on Linux, the first probe produces output with no
version-like substring yet detection does not yield the "unknown" result:
it continues with the next probe, whose matching output determines the
version.  Under the claim the first produced output would have to yield
`False`. -/
theorem detect_version_skips_unparsable_output_cex :
    OS_CMDS envC7.platform =
      some ["chromium --version", "chromium-browser --version",
            "google-chrome --version"] ∧
    envC7.cmdOutput "chromium --version" = some "Chromium snapshot build" ∧
    searchPattern ("Chromium snapshot build".data) = none ∧
    detect_chrome_version envC7 = Except.ok (some "80.0.3987.106") :=
  ⟨rfl, rfl, by decide, rfl⟩

/-- C7 amended: version detection runs the fixed ordered OS-specific probe
list until one produces output in which the capture pattern
`(\d+)(\.\d+\.\d+.\d+)` finds a match (probes whose output is absent or has
no version-like substring are skipped); that first match's major version is
mapped through the static `{81, 80, 79}` table, an unmapped major version
yielding the "unknown" result `False`, and if no probe output matches, the
result is `False`. -/
theorem detect_version_first_match (env : Env) (cmds : List String)
    (h : OS_CMDS env.platform = some cmds) :
    detect_chrome_version env = Except.ok
      (match cmds.findSome?
          (fun c => (env.cmdOutput c).bind (fun o => searchPattern o.data)) with
       | none => none
       | some (major, _) => CHROMEDRIVER_VERSIONS.lookup major) := by
  unfold detect_chrome_version
  rw [h]
  show Except.ok (detectLoop env cmds) = _
  rw [detectLoop_findSome]

/-- C7 witness: the amended characterization instantiated at the concrete
environment whose first probe output is unparsable. -/
theorem detect_version_first_match_witness :
    detect_chrome_version envC7 = Except.ok
      (match (["chromium --version", "chromium-browser --version",
               "google-chrome --version"].findSome?
          (fun c => (envC7.cmdOutput c).bind (fun o => searchPattern o.data))) with
       | none => none
       | some (major, _) => CHROMEDRIVER_VERSIONS.lookup major) :=
  detect_version_first_match envC7 _ rfl

/-- C8 counterexample: when `download_and_install` raises `RuntimeError`,
`download_driver` swallows it but logs nothing about the failure — the only
record is the entry info message, and no debug-level record exists,
contradicting the claim that the failure is logged at debug level. -/
theorem download_failure_not_logged_cex :
    download_driver failDl "chromedriver" "/tmp/drivers"
        (some "80.0.3987.106") =
      [(LogLevel.info, "Downloading driver into: /tmp/drivers")] ∧
    ¬ ∃ e ∈ download_driver failDl "chromedriver" "/tmp/drivers"
        (some "80.0.3987.106"), e.1 = LogLevel.debug := by
  refine ⟨rfl, ?_⟩
  decide

/-- C8 amended: a `RuntimeError` raised by the provider's
`download_and_install` is caught inside `download_driver` and silently
swallowed — the function completes normally (it is total, so the failure
never propagates), emits no record about the failure (in particular nothing
at debug level; the debug record exists only on the success path), and
acquisition proceeds treating the download as unsuccessful. -/
theorem download_failure_swallowed_silently
    (dl : Option String → Except Unit Unit) (fn dir : String)
    (version : Option String) (hfail : ∀ x, dl x = Except.error ()) :
    download_driver dl fn dir version =
      [(LogLevel.info, "Downloading driver into: " ++ dir)] ∧
    ∀ e ∈ download_driver dl fn dir version, e.1 ≠ LogLevel.debug := by
  have h : download_driver dl fn dir version =
      [(LogLevel.info, "Downloading driver into: " ++ dir)] := by
    unfold download_driver download_and_install_try
    cases version with
    | none => rw [hfail]
    | some v =>
      by_cases hv : v = "" <;> simp [hv, hfail]
  refine ⟨h, ?_⟩
  rw [h]
  intro e he
  simp only [List.mem_singleton] at he
  subst he
  simp

/-- C8 witness for the amended statement: the always-failing provider with a
concrete version. -/
theorem download_failure_swallowed_silently_witness :
    download_driver failDl "chromedriver" "/tmp/drivers" none =
      [(LogLevel.info, "Downloading driver into: /tmp/drivers")] ∧
    ∀ e ∈ download_driver failDl "chromedriver" "/tmp/drivers" none,
      e.1 ≠ LogLevel.debug := by
  have h := download_failure_swallowed_silently failDl "chromedriver"
    "/tmp/drivers" none (fun _ => rfl)
  simpa using h
